import Mathlib

/-!
Static verification of `frontend/tailwind.config.js`.

The file is one object literal, the default export of the module.  It is
embedded here as a Lean value of the same shape: an object literal becomes an
association list in source order (`Obj`), an array literal a `List`, a string
literal a `String`.  On top of that value sit the small readers the checked
properties talk about (the keyframe name of an animation shorthand, the
channels of a hex colour, the percentage of a keyframe selector, the
`rgba(...)` occurrences of a CSS value).
-/

namespace TailwindConfig

/-! ## Data model -/

/-- An object literal with string keys: its properties in source order. -/
abbrev Obj (α : Type) := List (String × α)

/-- The property names of an object literal, in source order. -/
def keys {α : Type} (o : Obj α) : List String := o.map Prod.fst

/-- A value bound by an ES-module import.  `import x from 'm'` binds `x` to
the default export of module `m`. -/
inductive ModuleExport where
  | defaultOf (specifier : String)
  deriving DecidableEq, Repr

/-- An entry of `theme.extend.colors`: either a colour string, or a nested
object whose keys are numeric literals (`900: '#0A0A0F'`).  The numeric keys
are kept as the numbers the source writes, in source order. -/
inductive ColorEntry where
  | value (css : String)
  | shades (steps : List (Nat × String))
  deriving DecidableEq, Repr

/-- The record under `theme.extend`. -/
structure ThemeExtend where
  colors : Obj ColorEntry
  fontFamily : Obj (List String)
  animation : Obj String
  keyframes : Obj (Obj (Obj String))
  boxShadow : Obj String
  backgroundImage : Obj String
  deriving DecidableEq, Repr

/-- The record under `theme`. -/
structure Theme where
  extend : ThemeExtend
  deriving DecidableEq, Repr

/-- The configuration object: the module's default export. -/
structure Config where
  content : List String
  darkMode : String
  theme : Theme
  plugins : List ModuleExport
  deriving DecidableEq, Repr

/-! ## The source file -/

/-- Line 1: `import tailwindcssAnimate from 'tailwindcss-animate';`. -/
def tailwindcssAnimate : ModuleExport := .defaultOf "tailwindcss-animate"

/-- The `colors` object, lines 9 to 30. -/
def colors : Obj ColorEntry :=
  [ ("dark", .shades
      [ (900, "#0A0A0F"),
        (800, "#12121A"),
        (700, "#1A1A25"),
        (600, "#222230"),
        (500, "#2A2A3C"),
        (400, "#3A3A52") ]),
    ("amber", .shades
      [ (400, "#FBBF24"),
        (500, "#F59E0B"),
        (600, "#D97706") ]),
    ("success", .value "#10B981"),
    ("warning", .value "#F59E0B"),
    ("danger", .value "#EF4444"),
    ("info", .value "#3B82F6") ]

/-- The `fontFamily` object, lines 31 to 34. -/
def fontFamily : Obj (List String) :=
  [ ("sans", ["Inter", "system-ui", "sans-serif"]),
    ("mono", ["JetBrains Mono", "monospace"]) ]

/-- The `animation` object, lines 35 to 40. -/
def animation : Obj String :=
  [ ("pulse-slow", "pulse 3s cubic-bezier(0.4, 0, 0.6, 1) infinite"),
    ("fade-in", "fadeIn 0.5s ease-out"),
    ("slide-up", "slideUp 0.5s ease-out"),
    ("glow", "glow 2s ease-in-out infinite alternate") ]

/-- The `keyframes` object, lines 41 to 54. -/
def keyframes : Obj (Obj (Obj String)) :=
  [ ("fadeIn",
      [ ("0%", [("opacity", "0")]),
        ("100%", [("opacity", "1")]) ]),
    ("slideUp",
      [ ("0%", [("transform", "translateY(20px)"), ("opacity", "0")]),
        ("100%", [("transform", "translateY(0)"), ("opacity", "1")]) ]),
    ("glow",
      [ ("0%", [("boxShadow", "0 0 5px rgba(245, 158, 11, 0.5)")]),
        ("100%", [("boxShadow",
          "0 0 20px rgba(245, 158, 11, 0.8), 0 0 40px rgba(245, 158, 11, 0.4)")]) ]) ]

/-- The `boxShadow` object, lines 55 to 59. -/
def boxShadow : Obj String :=
  [ ("glass", "0 8px 32px 0 rgba(0, 0, 0, 0.37)"),
    ("neon", "0 0 20px rgba(245, 158, 11, 0.5)"),
    ("card", "0 4px 6px -1px rgba(0, 0, 0, 0.3), 0 2px 4px -1px rgba(0, 0, 0, 0.2)") ]

/-- The `backgroundImage` object, lines 60 to 63. -/
def backgroundImage : Obj String :=
  [ ("gradient-radial", "radial-gradient(var(--tw-gradient-stops))"),
    ("gradient-conic",
      "conic-gradient(from 180deg at 50% 50%, var(--tw-gradient-stops))") ]

/-- The default export, lines 4 to 67. -/
def config : Config :=
  { content := ["./src/**/*.\x7bhtml,js,svelte,ts\x7d"],
    darkMode := "class",
    theme :=
      { extend :=
          { colors := colors,
            fontFamily := fontFamily,
            animation := animation,
            keyframes := keyframes,
            boxShadow := boxShadow,
            backgroundImage := backgroundImage } },
    plugins := [tailwindcssAnimate] }

/-! ## Readers -/

/-- The keyframe name of a CSS `animation` shorthand as this file writes it:
the first whitespace-separated token. -/
def keyframeName (shorthand : String) : String :=
  String.mk
    ((shorthand.data.dropWhile Char.isWhitespace).takeWhile
      (fun c => !c.isWhitespace))

/-- The colour strings of one `colors` entry: itself, or those of its shades. -/
def ColorEntry.values : ColorEntry → List String
  | .value css => [css]
  | .shades steps => steps.map Prod.snd

/-- Every colour string of a `colors` object, nested ones included. -/
def colorValues (cs : Obj ColorEntry) : List String :=
  cs.flatMap (fun e => e.2.values)

/-- The nested entries of a `colors` object, with their names. -/
def shadeGroups (cs : Obj ColorEntry) : Obj (List (Nat × String)) :=
  cs.filterMap (fun e =>
    match e.2 with
    | .shades steps => some (e.1, steps)
    | .value _ => none)

/-- The value of a hexadecimal digit, either case. -/
def hexDigitValue (c : Char) : Option Nat :=
  if '0' ≤ c ∧ c ≤ '9' then some (c.toNat - '0'.toNat)
  else if 'a' ≤ c ∧ c ≤ 'f' then some (c.toNat - 'a'.toNat + 10)
  else if 'A' ≤ c ∧ c ≤ 'F' then some (c.toNat - 'A'.toNat + 10)
  else none

/-- Whether a character is a hexadecimal digit. -/
def isHexDigit (c : Char) : Bool := (hexDigitValue c).isSome

/-- Whether a string is `#` followed by exactly six hexadecimal digits. -/
def isHexColor (s : String) : Bool :=
  match s.data with
  | '#' :: ds => ds.length == 6 && ds.all isHexDigit
  | _ => false

/-- Red, green and blue channels. -/
structure Rgb where
  r : Nat
  g : Nat
  b : Nat
  deriving DecidableEq, Repr

/-- Channels that fit a byte. -/
def Rgb.InRange (p : Rgb) : Prop := p.r ≤ 255 ∧ p.g ≤ 255 ∧ p.b ≤ 255

instance (p : Rgb) : Decidable p.InRange :=
  inferInstanceAs (Decidable (p.r ≤ 255 ∧ p.g ≤ 255 ∧ p.b ≤ 255))

/-- The channels of a `#RRGGBB` string: each pair of hex digits read as a
number. -/
def hexChannels (s : String) : Option Rgb :=
  match s.data with
  | ['#', r1, r0, g1, g0, b1, b0] =>
    match hexDigitValue r1, hexDigitValue r0, hexDigitValue g1,
        hexDigitValue g0, hexDigitValue b1, hexDigitValue b0 with
    | some r1, some r0, some g1, some g0, some b1, some b0 =>
      some { r := 16 * r1 + r0, g := 16 * g1 + g0, b := 16 * b1 + b0 }
    | _, _, _, _, _, _ => none
  | _ => none

/-- Whether colour `x` has every channel strictly below that of colour `y`. -/
def darkerThan (x y : String) : Bool :=
  match hexChannels x, hexChannels y with
  | some p, some q => decide (p.r < q.r) && decide (p.g < q.g) && decide (p.b < q.b)
  | _, _ => false

/-- The value of a decimal digit. -/
def digitValue (c : Char) : Option Nat :=
  if '0' ≤ c ∧ c ≤ '9' then some (c.toNat - '0'.toNat) else none

/-- Reads decimal digits onto an accumulator. -/
def decimalFrom (acc : Nat) : List Char → Option Nat
  | [] => some acc
  | c :: cs =>
    match digitValue c with
    | some d => decimalFrom (acc * 10 + d) cs
    | none => none

/-- A non-empty run of decimal digits read as a number. -/
def readDecimal (cs : List Char) : Option Nat :=
  match cs with
  | [] => none
  | _ :: _ => decimalFrom 0 cs

/-- The number of a keyframe selector `N%`. -/
def percentOf (selector : String) : Option Nat :=
  match selector.data.reverse with
  | '%' :: digits => readDecimal digits.reverse
  | _ => none

/-- An `rgba(r, g, b, a)` colour: integer channels and the alpha as written. -/
structure Rgba where
  r : Nat
  g : Nat
  b : Nat
  alpha : String
  deriving DecidableEq, Repr

/-- The text between `rgba(` and the next `)` for each occurrence of `rgba(`
in a CSS value, left to right. -/
def rgbaArguments : List Char → List (List Char)
  | [] => []
  | c :: cs =>
    if c = 'r' ∧ cs.take 4 = ['g', 'b', 'a', '('] then
      (cs.drop 4).takeWhile (fun d => d != ')') :: rgbaArguments cs
    else rgbaArguments cs

/-- Strips blanks at both ends. -/
def trimBlanks (cs : List Char) : List Char :=
  ((cs.dropWhile Char.isWhitespace).reverse.dropWhile Char.isWhitespace).reverse

/-- Reads the argument text of one `rgba(...)`. -/
def readRgba (arguments : List Char) : Option Rgba :=
  match (arguments.splitOn ',').map trimBlanks with
  | [r, g, b, a] =>
    match readDecimal r, readDecimal g, readDecimal b with
    | some r, some g, some b => some { r := r, g := g, b := b, alpha := String.mk a }
    | _, _, _ => none
  | _ => none

/-- Every `rgba(...)` colour of a CSS value, left to right (`none` for one
that does not read). -/
def rgbaColors (css : String) : List (Option Rgba) :=
  (rgbaArguments css.data).map readRgba

/-- The CSS values under the `glow` keyframes, followed by the `neon`
box-shadow preset. -/
def glowAndNeonValues (t : ThemeExtend) : List String :=
  (((t.keyframes.lookup "glow").getD []).flatMap (fun frame => frame.2.map Prod.snd))
    ++ (t.boxShadow.lookup "neon").toList

/-- The accent colour `amber.500`. -/
def accentColor (t : ThemeExtend) : Option String :=
  match t.colors.lookup "amber" with
  | some (.shades steps) => steps.lookup 500
  | _ => none

/-! ## What the readers compute -/

/-- Order on characters is order on their code points. -/
theorem char_le_iff (a b : Char) : a ≤ b ↔ a.toNat ≤ b.toNat := Iff.rfl

/-- A hexadecimal digit is worth less than sixteen. -/
theorem hexDigitValue_lt {c : Char} {v : Nat} (h : hexDigitValue c = some v) : v < 16 := by
  unfold hexDigitValue at h
  simp only [char_le_iff] at h
  have e0 : ('0' : Char).toNat = 48 := rfl
  have e9 : ('9' : Char).toNat = 57 := rfl
  have ea : ('a' : Char).toNat = 97 := rfl
  have ef : ('f' : Char).toNat = 102 := rfl
  have eA : ('A' : Char).toNat = 65 := rfl
  have eF : ('F' : Char).toNat = 70 := rfl
  rw [e0, e9, ea, ef, eA, eF] at h
  split_ifs at h with h1 h2 h3
  all_goals (injection h with h; omega)

/-- A string passes `isHexColor` exactly when it is `#` and six hex digits. -/
theorem isHexColor_iff (s : String) :
    isHexColor s = true ↔
      ∃ ds : List Char, s.data = '#' :: ds ∧ ds.length = 6 ∧
        ∀ d ∈ ds, isHexDigit d = true := by
  unfold isHexColor
  split
  · next ds h => simp [h, List.all_eq_true]
  · next h =>
    simp only [Bool.false_eq_true, false_iff]
    rintro ⟨ds, hds, -, -⟩
    exact h ds hds

/-- Every channel read from a hex colour is between 0 and 255. -/
theorem hexChannels_inRange {s : String} {p : Rgb} (h : hexChannels s = some p) :
    p.InRange := by
  unfold hexChannels at h
  split at h
  · split at h
    · next h1 h2 h3 h4 h5 h6 =>
      injection h with h
      subst h
      have := hexDigitValue_lt h1
      have := hexDigitValue_lt h2
      have := hexDigitValue_lt h3
      have := hexDigitValue_lt h4
      have := hexDigitValue_lt h5
      have := hexDigitValue_lt h6
      refine ⟨?_, ?_, ?_⟩ <;> simp only <;> omega
    · exact absurd h (by simp)
  · exact absurd h (by simp)

/-- What `darkerThan` decides, channel by channel. -/
theorem darkerThan_iff (x y : String) :
    darkerThan x y = true ↔
      ∃ p q : Rgb, hexChannels x = some p ∧ hexChannels y = some q ∧
        p.r < q.r ∧ p.g < q.g ∧ p.b < q.b := by
  unfold darkerThan
  split
  · next p q hp hq =>
    simp [hp, hq, and_assoc]
  · next hne =>
    simp only [Bool.false_eq_true, false_iff]
    rintro ⟨p, q, hp, hq, -⟩
    exact hne p q hp hq

/-- The `colors` object holds thirteen colour strings: six `dark` shades, three
`amber` shades and four status colours. -/
theorem colorValues_length : (colorValues config.theme.extend.colors).length = 13 := by
  decide

/-! ## Animation and keyframes -/

/-- C1, as stated, fails: the `pulse-slow` entry of `theme.extend.animation`
references the keyframe name `pulse`, and `pulse` is not a key of
`theme.extend.keyframes`. -/
theorem pulse_slow_keyframe_not_defined :
    ∃ e ∈ config.theme.extend.animation,
      e.1 = "pulse-slow" ∧ keyframeName e.2 = "pulse" ∧
        keyframeName e.2 ∉ keys config.theme.extend.keyframes := by
  decide

/-- C1, amended: an entry of `theme.extend.animation` references a key of
`theme.extend.keyframes` exactly when it is not `pulse-slow`; so `fade-in`,
`slide-up` and `glow` all reference keyframes the file defines. -/
theorem animation_keyframe_defined_iff :
    ∀ e ∈ config.theme.extend.animation,
      (keyframeName e.2 ∈ keys config.theme.extend.keyframes ↔ e.1 ≠ "pulse-slow") := by
  decide

/-- C1, amended, at the `fade-in` entry. -/
theorem animation_keyframe_defined_iff_witness :
    ("fade-in", "fadeIn 0.5s ease-out") ∈ config.theme.extend.animation ∧
      (keyframeName "fadeIn 0.5s ease-out" ∈ keys config.theme.extend.keyframes ↔
        "fade-in" ≠ "pulse-slow") :=
  ⟨by decide,
    animation_keyframe_defined_iff ("fade-in", "fadeIn 0.5s ease-out") (by decide)⟩

/-- C9: every key of `theme.extend.keyframes` is the keyframe name of at
least one entry of `theme.extend.animation`. -/
theorem keyframes_all_referenced :
    ∀ k ∈ keys config.theme.extend.keyframes,
      ∃ e ∈ config.theme.extend.animation, keyframeName e.2 = k := by
  decide

/-- C9 at the `slideUp` keyframes. -/
theorem keyframes_all_referenced_witness :
    "slideUp" ∈ keys config.theme.extend.keyframes ∧
      ∃ e ∈ config.theme.extend.animation, keyframeName e.2 = "slideUp" :=
  ⟨by decide, keyframes_all_referenced "slideUp" (by decide)⟩

/-- C7: every entry of `theme.extend.keyframes` lists selectors that read as
integers from 0 to 100 followed by `%`, in strictly ascending order, the first
being `0%` and the last `100%`. -/
theorem keyframes_selectors_ascending :
    ∀ kf ∈ config.theme.extend.keyframes,
      ∃ ps : List Nat,
        (keys kf.2).map percentOf = ps.map some ∧
          (∀ p ∈ ps, p ≤ 100) ∧
          ps.Pairwise (fun a b => a < b) ∧
          (keys kf.2).head? = some "0%" ∧
          (keys kf.2).getLast? = some "100%" := by
  intro kf hkf
  have hcases : kf.2 ∈ config.theme.extend.keyframes.map Prod.snd :=
    List.mem_map_of_mem _ hkf
  have hall : ∀ frames ∈ config.theme.extend.keyframes.map Prod.snd,
      (keys frames).map percentOf = [some 0, some 100] ∧
        (keys frames).head? = some "0%" ∧ (keys frames).getLast? = some "100%" := by
    decide
  obtain ⟨h1, h2, h3⟩ := hall kf.2 hcases
  exact ⟨[0, 100], h1, by decide, by decide, h2, h3⟩

/-- C7 at the `glow` keyframes. -/
theorem keyframes_selectors_ascending_witness :
    ∃ ps : List Nat,
      ["0%", "100%"].map percentOf = ps.map some ∧
        (∀ p ∈ ps, p ≤ 100) ∧
        ps.Pairwise (fun a b => a < b) ∧
        ["0%", "100%"].head? = some "0%" ∧
        ["0%", "100%"].getLast? = some "100%" :=
  keyframes_selectors_ascending
    ("glow",
      [ ("0%", [("boxShadow", "0 0 5px rgba(245, 158, 11, 0.5)")]),
        ("100%", [("boxShadow",
          "0 0 20px rgba(245, 158, 11, 0.8), 0 0 40px rgba(245, 158, 11, 0.4)")]) ])
    (by decide)

/-! ## Colours -/

/-- C2: every colour value of `theme.extend.colors`, nested shades included,
is the character `#` followed by exactly six hexadecimal digits. -/
theorem color_values_are_hex :
    ∀ v ∈ colorValues config.theme.extend.colors,
      ∃ ds : List Char, v.data = '#' :: ds ∧ ds.length = 6 ∧
        ∀ d ∈ ds, isHexDigit d = true := by
  intro v hv
  have hall : ∀ w ∈ colorValues config.theme.extend.colors, isHexColor w = true := by
    decide
  exact (isHexColor_iff v).1 (hall v hv)

/-- C2 at the `info` colour. -/
theorem color_values_are_hex_witness :
    "#3B82F6" ∈ colorValues config.theme.extend.colors ∧
      ∃ ds : List Char, "#3B82F6".data = '#' :: ds ∧ ds.length = 6 ∧
        ∀ d ∈ ds, isHexDigit d = true :=
  ⟨by decide, color_values_are_hex "#3B82F6" (by decide)⟩

/-- C4: the top-level names of `theme.extend.colors` are `dark`, `amber`,
`success`, `warning`, `danger`, `info`, pairwise distinct, and within each
shade group the numeric sub-keys are pairwise distinct. -/
theorem color_keys_unique :
    keys config.theme.extend.colors =
        ["dark", "amber", "success", "warning", "danger", "info"] ∧
      (keys config.theme.extend.colors).Nodup ∧
      (keys (shadeGroups config.theme.extend.colors) = ["dark", "amber"]) ∧
      ∀ g ∈ shadeGroups config.theme.extend.colors, (g.2.map Prod.fst).Nodup := by
  decide

/-- C6: in every shade group of `theme.extend.colors`, for two steps with
numeric keys `a < b`, both colours read as channels between 0 and 255 and each
of the red, green and blue channels at step `b` is strictly below the same
channel at step `a`. -/
theorem shades_darken_as_key_grows :
    ∀ g ∈ shadeGroups config.theme.extend.colors,
      ∀ a ∈ g.2, ∀ b ∈ g.2, a.1 < b.1 →
        ∃ p q : Rgb, hexChannels a.2 = some p ∧ hexChannels b.2 = some q ∧
          p.InRange ∧ q.InRange ∧ q.r < p.r ∧ q.g < p.g ∧ q.b < p.b := by
  intro g hg a ha b hb hab
  have hall : ∀ g ∈ shadeGroups config.theme.extend.colors,
      ∀ a ∈ g.2, ∀ b ∈ g.2, a.1 < b.1 → darkerThan b.2 a.2 = true := by
    decide
  obtain ⟨q, p, hq, hp, hlt⟩ := (darkerThan_iff b.2 a.2).1 (hall g hg a ha b hb hab)
  exact ⟨p, q, hp, hq, hexChannels_inRange hp, hexChannels_inRange hq, hlt⟩

/-- C6 at `amber`, steps 400 and 600. -/
theorem shades_darken_as_key_grows_witness :
    ("amber", [(400, "#FBBF24"), (500, "#F59E0B"), (600, "#D97706")]) ∈
        shadeGroups config.theme.extend.colors ∧
      ∃ p q : Rgb, hexChannels "#FBBF24" = some p ∧ hexChannels "#D97706" = some q ∧
        p.InRange ∧ q.InRange ∧ q.r < p.r ∧ q.g < p.g ∧ q.b < p.b :=
  ⟨by decide,
    shades_darken_as_key_grows
      ("amber", [(400, "#FBBF24"), (500, "#F59E0B"), (600, "#D97706")]) (by decide)
      (400, "#FBBF24") (by decide) (600, "#D97706") (by decide) (by decide)⟩

/-- C8: the accent colour `amber.500` reads as channels (245, 158, 11); the
`glow` keyframes and the `neon` box-shadow hold four `rgba(...)` colours, and
each of them has exactly those red, green and blue components, whatever its
alpha. -/
theorem glow_neon_rgba_is_accent :
    ∃ accent : Rgb,
      (accentColor config.theme.extend).bind hexChannels = some accent ∧
        accent = { r := 245, g := 158, b := 11 } ∧
        ((glowAndNeonValues config.theme.extend).flatMap rgbaColors).length = 4 ∧
        ∀ css ∈ glowAndNeonValues config.theme.extend, ∀ c ∈ rgbaColors css,
          ∃ alpha : String,
            c = some { r := accent.r, g := accent.g, b := accent.b, alpha := alpha } := by
  refine ⟨{ r := 245, g := 158, b := 11 }, by decide, rfl, by decide, ?_⟩
  intro css hcss c hc
  have hall : ∀ css ∈ glowAndNeonValues config.theme.extend, ∀ c ∈ rgbaColors css,
      (c.map (fun x => (x.r, x.g, x.b))) = some (245, 158, 11) := by
    decide
  have h := hall css hcss c hc
  cases c with
  | none => simp at h
  | some x =>
    obtain ⟨r, g, b, alpha⟩ := x
    simp only [Option.map_some', Option.some.injEq, Prod.mk.injEq] at h
    obtain ⟨rfl, rfl, rfl⟩ := h
    exact ⟨alpha, rfl⟩

/-! ## Fonts, content globs, plugins -/

/-- C10: every font stack of `theme.extend.fontFamily` is non-empty, has
pairwise distinct names, and ends in the generic family of its role:
`sans-serif` for `sans`, `monospace` for `mono`. -/
theorem font_stacks_end_in_generic_family :
    ∀ f ∈ config.theme.extend.fontFamily,
      f.2 ≠ [] ∧ f.2.Nodup ∧
        ((f.1 = "sans" ∧ f.2.getLast? = some "sans-serif") ∨
          (f.1 = "mono" ∧ f.2.getLast? = some "monospace")) := by
  decide

/-- C10 at the `mono` stack. -/
theorem font_stacks_end_in_generic_family_witness :
    ("mono", ["JetBrains Mono", "monospace"]) ∈ config.theme.extend.fontFamily ∧
      ["JetBrains Mono", "monospace"] ≠ [] ∧ ["JetBrains Mono", "monospace"].Nodup ∧
        (("mono" = "sans" ∧
            ["JetBrains Mono", "monospace"].getLast? = some "sans-serif") ∨
          ("mono" = "mono" ∧
            ["JetBrains Mono", "monospace"].getLast? = some "monospace")) :=
  ⟨by decide,
    font_stacks_end_in_generic_family ("mono", ["JetBrains Mono", "monospace"])
      (by decide)⟩

/-- C3: the `content` list is non-empty and none of its patterns is the
empty string. -/
theorem content_globs_nonempty :
    config.content ≠ [] ∧ ∀ p ∈ config.content, p ≠ "" := by
  decide

/-- C5: the `plugins` list has exactly one element, the default export of
the `tailwindcss-animate` package. -/
theorem plugins_is_tailwindcss_animate :
    config.plugins.length = 1 ∧
      ∀ p ∈ config.plugins, p = ModuleExport.defaultOf "tailwindcss-animate" := by
  decide

end TailwindConfig
